import Mathlib

/-!
Formal model of the trading-system repository's Decision & Ledger Engine.

The Python sources `skills/scoring.py`, `skills/paper_trade.py` and the
daily-trade enforcement logic of `orchestrator.py` are embedded shallowly:

* Python floats become exact rationals (`ℚ`).  All arithmetic in the code is
  `+ - * /` with explicit zero-denominator guards, so the rational model is
  exact; `math.sqrt` (used only inside the standard-deviation helper and the
  volatility scaling) is abstracted as a parameter `msqrt : ℚ → ℚ`, since no
  verified property depends on its value.
* Python's `round(x, n)` is round-half-to-even on `x * 10^n`, modelled by
  `rne` / `pyRound`.
* `str.upper()` / `str.strip()` are modelled for ASCII by `pyUpper` /
  `pyStrip`.
* The SQLite-backed state touched by one `execute_paper_order` transaction
  (the agent's cash row, the one affected position row, the trade log) is the
  structure `LedgerState`; raising, rejecting and filling are the
  constructors of `ExecOutcome`, and a raise or rejection returns the state
  unchanged (the transaction rolls back).
-/

/-- ASCII uppercase of one character, as Python's `str.upper` acts on ASCII. -/
def upperChar (c : Char) : Char :=
  if 'a' ≤ c ∧ c ≤ 'z' then Char.ofNat (c.toNat - 32) else c

/-- Model of Python `str.upper()` for ASCII strings. -/
def pyUpper (s : String) : String := String.mk (s.data.map upperChar)

/-- Whitespace test used by the model of `str.strip()`. -/
def isSpaceChar (c : Char) : Bool := c == ' ' || c == '\t' || c == '\n' || c == '\r'

/-- Model of Python `str.strip()`: drop leading and trailing whitespace. -/
def pyStrip (s : String) : String :=
  String.mk (((s.data.dropWhile isSpaceChar).reverse.dropWhile isSpaceChar).reverse)

/-- Round-half-to-even to an integer, the rounding mode of Python's `round`. -/
def rne (q : ℚ) : ℤ :=
  if q - ⌊q⌋ < 1/2 then ⌊q⌋
  else if 1/2 < q - ⌊q⌋ then ⌊q⌋ + 1
  else if ⌊q⌋ % 2 = 0 then ⌊q⌋ else ⌊q⌋ + 1

/-- Model of Python `round(q, ndigits)` (round half to even). -/
def pyRound (q : ℚ) (ndigits : ℕ) : ℚ := (rne (q * 10 ^ ndigits) : ℚ) / 10 ^ ndigits

lemma rne_le_add_half (q : ℚ) : (rne q : ℚ) ≤ q + 1/2 := by
  have h0 : ((⌊q⌋ : ℤ) : ℚ) ≤ q := Int.floor_le q
  have h1 : q < (⌊q⌋ : ℚ) + 1 := Int.lt_floor_add_one q
  unfold rne
  split_ifs with hlt hgt heven <;> push_cast <;> linarith

lemma sub_half_le_rne (q : ℚ) : q - 1/2 ≤ (rne q : ℚ) := by
  have h0 : ((⌊q⌋ : ℤ) : ℚ) ≤ q := Int.floor_le q
  have h1 : q < (⌊q⌋ : ℚ) + 1 := Int.lt_floor_add_one q
  unfold rne
  split_ifs with hlt hgt heven <;> push_cast <;> linarith

lemma rne_mono {x y : ℚ} (h : x ≤ y) : rne x ≤ rne y := by
  by_contra hc
  push_neg at hc
  have h1 : (rne y : ℚ) + 1 ≤ (rne x : ℚ) := by exact_mod_cast Int.add_one_le_of_lt hc
  have h2 := rne_le_add_half x
  have h3 := sub_half_le_rne y
  have hyx : y ≤ x := by linarith
  have hxy : x = y := le_antisymm h hyx
  subst hxy
  exact absurd hc (lt_irrefl _)

lemma rne_intCast (z : ℤ) : rne (z : ℚ) = z := by
  unfold rne
  simp

lemma pyRound_mono {x y : ℚ} (h : x ≤ y) (n : ℕ) : pyRound x n ≤ pyRound y n := by
  unfold pyRound
  have hx : x * 10 ^ n ≤ y * 10 ^ n := by
    have hpow : (0:ℚ) ≤ 10 ^ n := by positivity
    exact mul_le_mul_of_nonneg_right h hpow
  have h1 : ((rne (x * 10 ^ n) : ℤ) : ℚ) ≤ ((rne (y * 10 ^ n) : ℤ) : ℚ) := by
    exact_mod_cast rne_mono hx
  exact div_le_div_of_nonneg_right h1 (by positivity)

lemma pyRound_intCast (z : ℤ) (n : ℕ) : pyRound (z : ℚ) n = z := by
  unfold pyRound
  have hcast : (z : ℚ) * 10 ^ n = ((z * 10 ^ n : ℤ) : ℚ) := by push_cast; ring
  rw [hcast, rne_intCast]
  have hpow : ((10:ℚ)) ^ n ≠ 0 := by positivity
  push_cast
  field_simp

lemma pyRound_le_one {x : ℚ} (h : x ≤ 1) (n : ℕ) : pyRound x n ≤ 1 := by
  have := pyRound_mono h n
  have h1 : pyRound (1 : ℚ) n = 1 := by
    have := pyRound_intCast 1 n
    simpa using this
  rw [h1] at this
  exact this

lemma neg_one_le_pyRound {x : ℚ} (h : -1 ≤ x) (n : ℕ) : -1 ≤ pyRound x n := by
  have := pyRound_mono h n
  have h1 : pyRound (-1 : ℚ) n = -1 := by
    have := pyRound_intCast (-1) n
    simpa using this
  rw [h1] at this
  exact this

/-- The `_clamp` helper of `scoring.py`: `max(lower, min(upper, value))`. -/
def _clamp (value lower upper : ℚ) : ℚ := max lower (min upper value)

lemma le_clamp (value lower upper : ℚ) : lower ≤ _clamp value lower upper := le_max_left _ _

lemma clamp_le {lower upper : ℚ} (value : ℚ) (h : lower ≤ upper) :
    _clamp value lower upper ≤ upper := by
  unfold _clamp
  exact max_le h (min_le_left _ _)

/-! Embedding of `skills/scoring.py`. -/

/-- One OHLCV candle; only `close` is read by the scoring code. -/
structure Candle where
  close : ℚ
deriving DecidableEq

/-- The `_extract_closes` helper: the close of every candle carrying one. -/
def _extract_closes (candles : List Candle) : List ℚ := candles.map (·.close)

/-- The `_returns` helper: simple returns, 0 where the previous close is 0. -/
def _returns : List ℚ → List ℚ
  | [] => []
  | [_] => []
  | a :: b :: rest => (if a = 0 then 0 else (b - a) / a) :: _returns (b :: rest)

/-- The `_ema` helper: seeded at the first value, folded with `alpha = 2/(period+1)`. -/
def _ema (values : List ℚ) (period : ℕ) : ℚ :=
  match values with
  | [] => 0
  | v :: vs =>
    let alpha : ℚ := 2 / ((period : ℚ) + 1)
    vs.foldl (fun e x => x * alpha + e * (1 - alpha)) v

/-- The `_rsi` helper over the last `period` deltas; 50 when history is too short,
100 when there is no loss. -/
def _rsi (values : List ℚ) (period : ℕ) : ℚ :=
  if values.length ≤ period then 50
  else
    let rev := values.reverse
    let deltas := (List.range period).map (fun i => rev.getD i 0 - rev.getD (i + 1) 0)
    let gains := deltas.map (fun d => if 0 ≤ d then d else 0)
    let losses := deltas.map (fun d => if 0 ≤ d then 0 else |d|)
    let avg_gain := gains.sum / (period : ℚ)
    let avg_loss := losses.sum / (period : ℚ)
    if avg_loss = 0 then 100
    else 100 - 100 / (1 + avg_gain / avg_loss)

/-- The `_stdev` helper: population standard deviation, with `math.sqrt`
abstracted as `msqrt`. -/
def _stdev (msqrt : ℚ → ℚ) (values : List ℚ) : ℚ :=
  if values = [] then 0
  else
    let mean := values.sum / (values.length : ℚ)
    msqrt ((values.map (fun v => (v - mean) ^ 2)).sum / (values.length : ℚ))

/-- The dictionary produced by `detect_market_regime`. -/
structure RegimeInfo where
  regime : String
  volatility_state : String
  momentum : ℚ
  confidence : ℚ
deriving DecidableEq

/-- `detect_market_regime`: neutral default below 30 closes, else the
trend-gap / momentum / volatility classification.  `math.sqrt(30)` is
`msqrt 30`. -/
def detect_market_regime (msqrt : ℚ → ℚ) (candles : List Candle) : RegimeInfo :=
  let closes := _extract_closes candles
  if closes.length < 30 then ⟨"ranging", "normal", 0, 0⟩
  else
    let returns := _returns closes
    let ema_fast := _ema closes 12
    let ema_slow := _ema closes 26
    let last_close := closes.getLastD 0
    let c20 := closes.getD (closes.length - 20) 0
    let momentum := if c20 ≠ 0 then (last_close - c20) / c20 else 0
    let trend_gap := if last_close ≠ 0 then |ema_fast - ema_slow| / last_close else 0
    let volatility := _stdev msqrt (returns.drop (returns.length - 30)) * msqrt 30
    ⟨if trend_gap > 0.012 ∨ |momentum| > 0.03 then "trending" else "ranging",
     if volatility > 0.06 then "high_volatility" else "normal",
     momentum,
     max 0 (min 1 (trend_gap * 30 + |momentum| * 4))⟩

/-- `score_mean_reversion`: negated half z-score of the last close against the
20-period window, clamped; 0 below 20 closes or at zero stdev. -/
def score_mean_reversion (msqrt : ℚ → ℚ) (candles : List Candle) : ℚ :=
  let closes := _extract_closes candles
  if closes.length < 20 then 0
  else
    let window := closes.drop (closes.length - 20)
    let mean := window.sum / (window.length : ℚ)
    let std := _stdev msqrt window
    if std = 0 then 0
    else _clamp (-((closes.getLastD 0 - mean) / std) / 2) (-1) 1

/-- `score_trend_follow`: 0.7 of the clamped scaled EMA9−EMA21 gap plus 0.3 of
the RSI(14) component, clamped; 0 below 30 closes or at a zero last close. -/
def score_trend_follow (candles : List Candle) : ℚ :=
  let closes := _extract_closes candles
  if closes.length < 30 then 0
  else
    let ema_fast := _ema closes 9
    let ema_slow := _ema closes 21
    let rsi := _rsi closes 14
    if closes.getLastD 0 = 0 then 0
    else
      let trend_component := _clamp (((ema_fast - ema_slow) / closes.getLastD 0) * 20) (-1) 1
      let rsi_component :=
        if rsi > 55 then _clamp ((rsi - 55) / 20) (-1) 1
        else if rsi < 45 then -(_clamp ((45 - rsi) / 20) (-1) 1)
        else 0
      _clamp (trend_component * 0.7 + rsi_component * 0.3) (-1) 1

/-- Maximum of a list (the guard in the source keeps the list nonempty). -/
def listMax : List ℚ → ℚ
  | [] => 0
  | x :: xs => xs.foldl max x

/-- Minimum of a list (the guard in the source keeps the list nonempty). -/
def listMin : List ℚ → ℚ
  | [] => 0
  | x :: xs => xs.foldl min x

/-- `score_breakout_confirmation`: position of the current close against the
high/low of the previous 20-candle window; 0 below 25 closes. -/
def score_breakout_confirmation (candles : List Candle) : ℚ :=
  let closes := _extract_closes candles
  if closes.length < 25 then 0
  else
    let recent := (closes.drop (closes.length - 21)).take 20
    if recent = [] then 0
    else
      let recent_high := listMax recent
      let recent_low := listMin recent
      let close := closes.getLastD 0
      if close > recent_high then
        _clamp (0.6 + (if recent_high ≠ 0 then (close - recent_high) / recent_high else 0) * 20) (-1) 1
      else if close < recent_low then
        _clamp (-0.6 - (if recent_low ≠ 0 then (recent_low - close) / recent_low else 0) * 20) (-1) 1
      else
        let center := (recent_high + recent_low) / 2
        if center = 0 then 0
        else _clamp ((close - center) / center) (-0.25) 0.25

/-- `score_sentiment_filter`: identity clamp of the sentiment scalar. -/
def score_sentiment_filter (sentiment_score : ℚ) : ℚ := _clamp sentiment_score (-1) 1

/-- The regime-adjusted strategy weight table of `score_trade_opportunity`,
with the `weights.get(name, 1.0)` default for unknown names. -/
def strategyWeight (regime name : String) : ℚ :=
  if name = "mean_reversion" then (if regime = "trending" then 0.6 else 1.2)
  else if name = "trend_follow" then (if regime = "trending" then 1.3 else 0.8)
  else if name = "breakout_confirmation" then 0.9
  else if name = "sentiment_filter" then 0.6
  else 1

/-- Keys of the `strategy_scores` dict: first occurrence of each name, in
insertion order. -/
def dictKeys (strategies : List String) : List String :=
  strategies.foldl (fun acc s => if s ∈ acc then acc else acc ++ [s]) []

/-- The per-strategy dispatch of the scoring loop; unknown names score 0. -/
def scoreOfStrategy (msqrt : ℚ → ℚ) (candles : List Candle) (sentiment_score : ℚ)
    (strategy : String) : ℚ :=
  if strategy = "mean_reversion" then score_mean_reversion msqrt candles
  else if strategy = "trend_follow" then score_trend_follow candles
  else if strategy = "breakout_confirmation" then score_breakout_confirmation candles
  else if strategy = "sentiment_filter" then score_sentiment_filter sentiment_score
  else 0

/-- `total_weight` before the zero floor: sum of absolute weights over the
active strategy names. -/
def totalWeightRaw (regime : String) (strategies : List String) : ℚ :=
  ((dictKeys strategies).map (fun n => |strategyWeight regime n|)).sum

/-- The `sum(...) or 1.0` floor applied to the weight sum. -/
def totalWeightFloored (regime : String) (strategies : List String) : ℚ :=
  if totalWeightRaw regime strategies = 0 then 1 else totalWeightRaw regime strategies

/-- The dictionary returned by `score_trade_opportunity`. -/
structure ScorePack where
  strategy_scores : List (String × ℚ)
  total_score : ℚ
  regime : String
  volatility_state : String

/-- `score_trade_opportunity`: weighted blend of the active strategy scores,
volatility dampener, clamp to `[-1, 1]`, rounded to 4 decimals. -/
def score_trade_opportunity (msqrt : ℚ → ℚ) (candles : List Candle)
    (strategies : List String) (regime_info : RegimeInfo) (sentiment_score : ℚ) :
    ScorePack :=
  let regime := regime_info.regime
  let names := dictKeys strategies
  let weighted_sum :=
    (names.map (fun n => scoreOfStrategy msqrt candles sentiment_score n * strategyWeight regime n)).sum
  let combined := weighted_sum / totalWeightFloored regime strategies
  let damped := if regime_info.volatility_state = "high_volatility" then combined * 0.85 else combined
  ⟨names.map (fun n => (n, scoreOfStrategy msqrt candles sentiment_score n)),
   pyRound (_clamp damped (-1) 1) 4, regime, regime_info.volatility_state⟩

/-- `decision_from_score`: the two-threshold BUY/SELL/HOLD rule. -/
def decision_from_score (score buy_threshold sell_threshold : ℚ) : String :=
  if score ≥ buy_threshold then "BUY"
  else if score ≤ sell_threshold then "SELL"
  else "HOLD"

/-! Embedding of `skills/paper_trade.py`. -/

/-- The `PaperOrder` dataclass. -/
structure PaperOrder where
  agent_id : String
  asset : String
  side : String
  price : ℚ
  notional_eur : ℚ
  reason : String

/-- One row of the `positions` table for the traded (agent, asset) pair. -/
structure Position where
  quantity : ℚ
  avg_price : ℚ
deriving DecidableEq

/-- One row of the append-only `trades` table. -/
structure TradeRow where
  side : String
  quantity : ℚ
  price : ℚ
  notional : ℚ
  fee : ℚ
  reason : String
deriving DecidableEq

/-- The database state one `execute_paper_order` transaction can touch: the
agent's cash balance, the (agent, asset) position row, and the trade log. -/
structure LedgerState where
  cash_balance : ℚ
  position : Option Position
  trades : List TradeRow
deriving DecidableEq

/-- The numeric fields of the `status: filled` result dictionary, with the
roundings the source applies. -/
structure FillResult where
  quantity : ℚ
  price : ℚ
  notional_eur : ℚ
  fee_eur : ℚ
deriving DecidableEq

/-- Terminal behaviour of one order: a raised `ValueError`, a business
rejection, or a fill. -/
inductive ExecOutcome where
  | raised (msg : String)
  | rejected (reason : String)
  | filled (fill : FillResult)
deriving DecidableEq

/-- Quantity read from an optional position row (0 when the row is absent). -/
def posQuantity : Option Position → ℚ
  | none => 0
  | some p => p.quantity

/-- Average price read from an optional position row (0 when absent). -/
def posAvgPrice : Option Position → ℚ
  | none => 0
  | some p => p.avg_price

/-- `execute_paper_order`: validation, business rejection, and the BUY/SELL
fills of `paper_trade.py`, as one atomic state transition.  A raise or a
rejection rolls back, returning the state unchanged. -/
def execute_paper_order (st : LedgerState) (order : PaperOrder) (fee_rate : ℚ) :
    ExecOutcome × LedgerState :=
  let side := pyStrip (pyUpper order.side)
  if side ≠ "BUY" ∧ side ≠ "SELL" then (.raised "unsupported_side", st)
  else if order.price ≤ 0 then (.raised "order_price_must_be_positive", st)
  else if order.notional_eur ≤ 0 then (.raised "order_notional_must_be_positive", st)
  else
    let quantity := posQuantity st.position
    let avg_price := posAvgPrice st.position
    let fee := order.notional_eur * fee_rate
    if side = "BUY" then
      let total_cost := order.notional_eur + fee
      if st.cash_balance < total_cost then (.rejected "insufficient_cash", st)
      else
        let bought_qty := order.notional_eur / order.price
        let new_qty := quantity + bought_qty
        if new_qty ≤ 0 then (.raised "calculated_quantity_invalid", st)
        else
          let new_avg_price :=
            if quantity ≠ 0 then (quantity * avg_price + bought_qty * order.price) / new_qty
            else order.price
          (.filled ⟨pyRound bought_qty 10, pyRound order.price 10,
                    pyRound order.notional_eur 8, pyRound fee 8⟩,
           ⟨st.cash_balance - total_cost, some ⟨new_qty, new_avg_price⟩,
            st.trades ++ [⟨side, bought_qty, order.price, order.notional_eur, fee, order.reason⟩]⟩)
    else
      if quantity ≤ 0 then (.rejected "no_position", st)
      else
        let max_notional := quantity * order.price
        let sell_notional := min order.notional_eur max_notional
        let traded_qty := sell_notional / order.price
        let sell_fee := sell_notional * fee_rate
        let proceeds := sell_notional - sell_fee
        let new_qty := quantity - traded_qty
        let new_position : Option Position :=
          if new_qty ≤ 1/10^10 then none else some ⟨new_qty, avg_price⟩
        (.filled ⟨pyRound traded_qty 10, pyRound order.price 10,
                  pyRound sell_notional 8, pyRound sell_fee 8⟩,
         ⟨st.cash_balance + proceeds, new_position,
          st.trades ++ [⟨side, traded_qty, order.price, sell_notional, sell_fee, order.reason⟩]⟩)

/-! Embedding of `_enforce_daily_trade_requirement` from `orchestrator.py`.
The SQLite reads (portfolio snapshot, trade-on-date query), the mark-price
map and the fallback candle fetch are external collaborators here, passed in
as values; logging and `append_event` are audit side channels with no effect
on the decision and are dropped. -/

/-- The agent-configuration fields the enforcer reads. -/
structure AgentCfg where
  force_daily_trade : Bool
  daily_trade_asset : Option String
  assets : List String
  daily_trade_side : Option String
  daily_trade_notional_eur : Option ℚ

/-- One position of the portfolio snapshot returned by `get_portfolio`. -/
structure PositionView where
  asset : String
  market_value_eur : ℚ
  market_price : ℚ
  avg_price : ℚ

/-- The portfolio snapshot fields the enforcer reads. -/
structure PortfolioView where
  cash_balance : ℚ
  positions : List PositionView

/-- `_select_sell_position`: the position matching the preferred asset if any,
else the largest position by market value (first one on ties), else none. -/
def _select_sell_position (portfolio : PortfolioView) (preferred_asset : String) :
    Option PositionView :=
  match portfolio.positions.find? (fun item => item.asset = preferred_asset) with
  | some preferred => some preferred
  | none =>
    match portfolio.positions with
    | [] => none
    | p :: ps =>
      some (ps.foldl (fun best item =>
        if best.market_value_eur < item.market_value_eur then item else best) p)

/-- `_position_price`: live mark price if positive, else the snapshot's market
price, else the average price. -/
def _position_price (position : PositionView) (mark_prices : String → ℚ) : ℚ :=
  if mark_prices position.asset > 0 then mark_prices position.asset
  else if position.market_price > 0 then position.market_price
  else position.avg_price

/-- Resolution of the daily-trade asset: the configured asset, else the first
listed asset, uppercased (Python `or` treats the empty string as missing). -/
def dailyAssetOf (agent : AgentCfg) : String :=
  let asset0 := agent.daily_trade_asset.getD ""
  pyUpper (if asset0 = "" then agent.assets.headD "" else asset0)

/-- Result of the daily-trade enforcer: not applicable, skipped, failed, or an
order executed against the ledger. -/
inductive EnforceOutcome where
  | notNeeded
  | skipped (reason : String)
  | failed (reason : String)
  | enforced (order : PaperOrder) (result : ExecOutcome × LedgerState)

/-- `_enforce_daily_trade_requirement`: opt-in and dedup guards, asset/side/
price resolution with the BUY↔SELL fallbacks, the minimum-order gate, and the
final `execute_paper_order` call.  `fetchedClose` is the close of the 2-candle
fallback fetch (`none` when no candles come back); `st` is the ledger slice of
the agent and the finally-resolved asset. -/
def _enforce_daily_trade_requirement (agent : AgentCfg) (agent_id : String)
    (portfolio : PortfolioView) (mark_prices : String → ℚ) (fetchedClose : Option ℚ)
    (minimum_order fee_rate : ℚ) (trade_date : String)
    (trades_executed_this_cycle : ℕ) (hasTradeOnDate : Bool) (st : LedgerState) :
    EnforceOutcome :=
  if ¬ agent.force_daily_trade then .notNeeded
  else if 0 < trades_executed_this_cycle then .notNeeded
  else if hasTradeOnDate then .notNeeded
  else
    let daily_asset := dailyAssetOf agent
    if daily_asset = "" then .skipped "missing_daily_trade_asset"
    else
      let requested_side := pyUpper (agent.daily_trade_side.getD "BUY")
      let side := if requested_side = "BUY" ∨ requested_side = "SELL" then requested_side else "BUY"
      let target_notional := max minimum_order (agent.daily_trade_notional_eur.getD minimum_order)
      match (if mark_prices daily_asset ≤ 0 then fetchedClose else some (mark_prices daily_asset)) with
      | none => .skipped "no_price_data"
      | some price =>
        let max_affordable_buy := portfolio.cash_balance / (1 + fee_rate)
        let resolved : Except String (String × String × ℚ × ℚ) :=
          if side = "BUY" then
            if min target_notional max_affordable_buy < minimum_order then
              match _select_sell_position portfolio daily_asset with
              | none => .error "insufficient_cash_and_no_position"
              | some sp =>
                .ok ("SELL", pyUpper sp.asset, _position_price sp mark_prices,
                     min target_notional sp.market_value_eur)
            else .ok (side, daily_asset, price, min target_notional max_affordable_buy)
          else
            match _select_sell_position portfolio daily_asset with
            | none =>
              if max_affordable_buy < minimum_order then
                .error "no_sell_position_and_not_enough_cash"
              else .ok ("BUY", daily_asset, price, min target_notional max_affordable_buy)
            | some sp =>
              if sp.market_value_eur < minimum_order then
                if max_affordable_buy < minimum_order then
                  .error "no_sell_position_and_not_enough_cash"
                else .ok ("BUY", daily_asset, price, min target_notional max_affordable_buy)
              else
                .ok (side, pyUpper sp.asset, _position_price sp mark_prices,
                     min target_notional sp.market_value_eur)
        match resolved with
        | .error reason => .failed reason
        | .ok (final_side, final_asset, final_price, notional) =>
          if notional < minimum_order then .failed "notional_below_minimum"
          else
            let order : PaperOrder :=
              ⟨agent_id, final_asset, final_side, final_price, pyRound notional 8,
               "mandatory_daily_trade|date=" ++ trade_date⟩
            .enforced order (execute_paper_order st order fee_rate)

/-! Claim theorems. -/

/-- Claim C5: for every price history with fewer than 30 closes,
`detect_market_regime` returns exactly the neutral default
(regime `ranging`, volatility `normal`, momentum 0, confidence 0). -/
theorem C5_short_history_neutral_regime (msqrt : ℚ → ℚ) (candles : List Candle)
    (h : (_extract_closes candles).length < 30) :
    detect_market_regime msqrt candles = ⟨"ranging", "normal", 0, 0⟩ := by
  simp only [detect_market_regime]
  rw [if_pos h]

/-- Witness for C5 at the empty history. -/
theorem C5_short_history_neutral_regime_witness :
    (_extract_closes []).length < 30 ∧
      detect_market_regime (fun _ => 0) [] = ⟨"ranging", "normal", 0, 0⟩ :=
  ⟨by norm_num [_extract_closes],
   C5_short_history_neutral_regime (fun _ => 0) [] (by norm_num [_extract_closes])⟩

/-- Claim C6: every strategy scorer stays inside `[-1, 1]` (the exact-rational
totality of the model is the NaN/Infinity-freeness of the claim), and each
degrades to exactly 0 below its documented minimum history length
(mean-reversion 20, trend-follow 30, breakout 25). -/
theorem C6_scorer_bounds_and_short_history_defaults (msqrt : ℚ → ℚ)
    (candles : List Candle) (sentiment_score : ℚ) :
    (-1 ≤ score_mean_reversion msqrt candles ∧ score_mean_reversion msqrt candles ≤ 1)
    ∧ (-1 ≤ score_trend_follow candles ∧ score_trend_follow candles ≤ 1)
    ∧ (-1 ≤ score_breakout_confirmation candles ∧ score_breakout_confirmation candles ≤ 1)
    ∧ (-1 ≤ score_sentiment_filter sentiment_score ∧ score_sentiment_filter sentiment_score ≤ 1)
    ∧ ((_extract_closes candles).length < 20 → score_mean_reversion msqrt candles = 0)
    ∧ ((_extract_closes candles).length < 30 → score_trend_follow candles = 0)
    ∧ ((_extract_closes candles).length < 25 → score_breakout_confirmation candles = 0) := by
  refine ⟨?_, ?_, ?_, ?_, ?_, ?_, ?_⟩
  · simp only [score_mean_reversion]
    split_ifs with h1 h2
    · norm_num
    · norm_num
    · exact ⟨le_clamp _ _ _, clamp_le _ (by norm_num)⟩
  · simp only [score_trend_follow]
    split_ifs with h1 h2 h3 h4
    · norm_num
    · norm_num
    · exact ⟨le_clamp _ _ _, clamp_le _ (by norm_num)⟩
    · exact ⟨le_clamp _ _ _, clamp_le _ (by norm_num)⟩
    · exact ⟨le_clamp _ _ _, clamp_le _ (by norm_num)⟩
  · simp only [score_breakout_confirmation]
    split_ifs with h1 h2 h3 h4 h5 h6 h7
    · norm_num
    · norm_num
    · exact ⟨le_clamp _ _ _, clamp_le _ (by norm_num)⟩
    · exact ⟨le_clamp _ _ _, clamp_le _ (by norm_num)⟩
    · exact ⟨le_clamp _ _ _, clamp_le _ (by norm_num)⟩
    · exact ⟨le_clamp _ _ _, clamp_le _ (by norm_num)⟩
    · norm_num
    · exact ⟨le_trans (by norm_num) (le_clamp _ _ _),
             le_trans (clamp_le _ (by norm_num)) (by norm_num)⟩
  · exact ⟨le_clamp _ _ _, clamp_le _ (by norm_num)⟩
  · intro h
    simp only [score_mean_reversion]
    rw [if_pos h]
  · intro h
    simp only [score_trend_follow]
    rw [if_pos h]
  · intro h
    simp only [score_breakout_confirmation]
    rw [if_pos h]

/-- Witness for C6: the empty history and an out-of-range sentiment. -/
theorem C6_scorer_bounds_witness :
    score_mean_reversion (fun _ => 0) [] = 0
    ∧ score_trend_follow [] = 0
    ∧ score_breakout_confirmation [] = 0
    ∧ (-1 ≤ score_sentiment_filter 2 ∧ score_sentiment_filter 2 ≤ 1) := by
  have h := C6_scorer_bounds_and_short_history_defaults (fun _ => 0) [] 2
  exact ⟨h.2.2.2.2.1 (by norm_num [_extract_closes]),
         h.2.2.2.2.2.1 (by norm_num [_extract_closes]),
         h.2.2.2.2.2.2 (by norm_num [_extract_closes]),
         h.2.2.2.1⟩

/-- Claim C7: `decision_from_score` returns BUY iff the score reaches the buy
threshold, SELL iff it misses the buy threshold and is at most the sell
threshold, HOLD otherwise; with the three concrete scenarios of the spec. -/
theorem C7_decision_rule_characterisation (score buy_threshold sell_threshold : ℚ) :
    (decision_from_score score buy_threshold sell_threshold = "BUY" ↔ buy_threshold ≤ score)
    ∧ (decision_from_score score buy_threshold sell_threshold = "SELL" ↔
        (score < buy_threshold ∧ score ≤ sell_threshold))
    ∧ (decision_from_score score buy_threshold sell_threshold = "HOLD" ↔
        (score < buy_threshold ∧ sell_threshold < score))
    ∧ decision_from_score 0.35 0.3 (-0.3) = "BUY"
    ∧ decision_from_score (-0.31) 0.3 (-0.3) = "SELL"
    ∧ decision_from_score 0 0.3 (-0.3) = "HOLD" := by
  refine ⟨?_, ?_, ?_, ?_, ?_, ?_⟩
  · unfold decision_from_score
    split_ifs with h1 h2 <;>
      simp_all [le_of_not_le, not_le, (by decide : ("SELL" : String) ≠ "BUY"),
        (by decide : ("HOLD" : String) ≠ "BUY")]
  · unfold decision_from_score
    split_ifs with h1 h2 <;>
      simp_all [not_le, (by decide : ("BUY" : String) ≠ "SELL"),
        (by decide : ("HOLD" : String) ≠ "SELL")]
  · unfold decision_from_score
    split_ifs with h1 h2 <;>
      simp_all [not_le, (by decide : ("BUY" : String) ≠ "HOLD"),
        (by decide : ("SELL" : String) ≠ "HOLD")]
  · norm_num [decision_from_score]
  · norm_num [decision_from_score]
  · norm_num [decision_from_score]

/-- Claim C10: with an inverted threshold configuration
(`buy_threshold ≤ sell_threshold`) the BUY branch still takes precedence:
any score reaching the buy threshold yields BUY, and SELL comes back exactly
when the score misses the buy threshold and is at most the sell threshold. -/
theorem C10_buy_branch_precedence (score buy_threshold sell_threshold : ℚ)
    (_hinv : buy_threshold ≤ sell_threshold) :
    (buy_threshold ≤ score → decision_from_score score buy_threshold sell_threshold = "BUY")
    ∧ (decision_from_score score buy_threshold sell_threshold = "SELL" ↔
        (score < buy_threshold ∧ score ≤ sell_threshold)) := by
  constructor
  · intro h
    unfold decision_from_score
    rw [if_pos h]
  · exact (C7_decision_rule_characterisation score buy_threshold sell_threshold).2.1

/-- Witness for C10 with inverted thresholds and a score satisfying both
branch conditions at once. -/
theorem C10_buy_branch_precedence_witness :
    (-0.3 : ℚ) ≤ 0.3 ∧
      ((-0.3 : ℚ) ≤ 0 → decision_from_score 0 (-0.3) 0.3 = "BUY") ∧
      (decision_from_score 0 (-0.3) 0.3 = "SELL" ↔ ((0:ℚ) < -0.3 ∧ (0:ℚ) ≤ 0.3)) :=
  ⟨by norm_num, (C10_buy_branch_precedence 0 (-0.3) 0.3 (by norm_num)).1,
   (C10_buy_branch_precedence 0 (-0.3) 0.3 (by norm_num)).2⟩

/-- Claim C4: the combined `total_score` of `score_trade_opportunity` lies in
`[-1, 1]` for every history, strategy set (including empty and unknown
names), regime info and sentiment, and the weight denominator it divides by
is strictly positive (the `or 1.0` floor removes the divide-by-zero). -/
theorem C4_total_score_bounded (msqrt : ℚ → ℚ) (candles : List Candle)
    (strategies : List String) (regime_info : RegimeInfo) (sentiment_score : ℚ) :
    -1 ≤ (score_trade_opportunity msqrt candles strategies regime_info sentiment_score).total_score
    ∧ (score_trade_opportunity msqrt candles strategies regime_info sentiment_score).total_score ≤ 1
    ∧ 0 < totalWeightFloored regime_info.regime strategies := by
  refine ⟨?_, ?_, ?_⟩
  · simp only [score_trade_opportunity]
    exact neg_one_le_pyRound (le_clamp _ _ _) 4
  · simp only [score_trade_opportunity]
    exact pyRound_le_one (clamp_le _ (by norm_num)) 4
  · unfold totalWeightFloored
    split_ifs with h
    · norm_num
    · refine lt_of_le_of_ne ?_ (Ne.symm h)
      unfold totalWeightRaw
      refine List.sum_nonneg ?_
      intro x hx
      obtain ⟨n, _, rfl⟩ := List.mem_map.mp hx
      exact abs_nonneg _

/-! Branch equations for `execute_paper_order`, used by the ledger claims. -/

lemma posQuantity_some (p : Position) : posQuantity (some p) = p.quantity := rfl

lemma posQuantity_none : posQuantity none = 0 := rfl

lemma pyNorm_BUY : pyStrip (pyUpper "BUY") = "BUY" := by decide

lemma pyNorm_SELL : pyStrip (pyUpper "SELL") = "SELL" := by decide

lemma execute_buy_reject (st : LedgerState) (o : PaperOrder) (f : ℚ)
    (hside : pyStrip (pyUpper o.side) = "BUY") (hp : 0 < o.price) (hn : 0 < o.notional_eur)
    (hc : st.cash_balance < o.notional_eur + o.notional_eur * f) :
    execute_paper_order st o f = (.rejected "insufficient_cash", st) := by
  unfold execute_paper_order
  rw [hside]
  rw [if_neg (by decide : ¬(("BUY" : String) ≠ "BUY" ∧ ("BUY" : String) ≠ "SELL"))]
  rw [if_neg (not_le.mpr hp), if_neg (not_le.mpr hn)]
  rw [if_pos rfl, if_pos hc]

lemma execute_buy_fill (st : LedgerState) (o : PaperOrder) (f : ℚ)
    (hside : pyStrip (pyUpper o.side) = "BUY") (hp : 0 < o.price) (hn : 0 < o.notional_eur)
    (hc : ¬ st.cash_balance < o.notional_eur + o.notional_eur * f)
    (hq : 0 ≤ posQuantity st.position) :
    execute_paper_order st o f =
      (.filled ⟨pyRound (o.notional_eur / o.price) 10, pyRound o.price 10,
                pyRound o.notional_eur 8, pyRound (o.notional_eur * f) 8⟩,
       ⟨st.cash_balance - (o.notional_eur + o.notional_eur * f),
        some ⟨posQuantity st.position + o.notional_eur / o.price,
              if posQuantity st.position ≠ 0 then
                (posQuantity st.position * posAvgPrice st.position +
                  (o.notional_eur / o.price) * o.price) /
                  (posQuantity st.position + o.notional_eur / o.price)
              else o.price⟩,
        st.trades ++ [⟨"BUY", o.notional_eur / o.price, o.price, o.notional_eur,
                       o.notional_eur * f, o.reason⟩]⟩) := by
  have hdiv : 0 < o.notional_eur / o.price := div_pos hn hp
  unfold execute_paper_order
  rw [hside]
  rw [if_neg (by decide : ¬(("BUY" : String) ≠ "BUY" ∧ ("BUY" : String) ≠ "SELL"))]
  rw [if_neg (not_le.mpr hp), if_neg (not_le.mpr hn)]
  rw [if_pos rfl, if_neg hc]
  rw [if_neg (not_le.mpr (by linarith : (0:ℚ) < posQuantity st.position + o.notional_eur / o.price))]

lemma execute_sell_fill (st : LedgerState) (o : PaperOrder) (f : ℚ)
    (hside : pyStrip (pyUpper o.side) = "SELL") (hp : 0 < o.price) (hn : 0 < o.notional_eur)
    (hq : 0 < posQuantity st.position) :
    execute_paper_order st o f =
      (.filled ⟨pyRound (min o.notional_eur (posQuantity st.position * o.price) / o.price) 10,
                pyRound o.price 10,
                pyRound (min o.notional_eur (posQuantity st.position * o.price)) 8,
                pyRound (min o.notional_eur (posQuantity st.position * o.price) * f) 8⟩,
       ⟨st.cash_balance + (min o.notional_eur (posQuantity st.position * o.price) -
          min o.notional_eur (posQuantity st.position * o.price) * f),
        if posQuantity st.position -
            min o.notional_eur (posQuantity st.position * o.price) / o.price ≤ 1/10^10 then none
        else some ⟨posQuantity st.position -
                     min o.notional_eur (posQuantity st.position * o.price) / o.price,
                   posAvgPrice st.position⟩,
        st.trades ++ [⟨"SELL", min o.notional_eur (posQuantity st.position * o.price) / o.price,
                       o.price, min o.notional_eur (posQuantity st.position * o.price),
                       min o.notional_eur (posQuantity st.position * o.price) * f, o.reason⟩]⟩) := by
  unfold execute_paper_order
  rw [hside]
  rw [if_neg (by decide : ¬(("SELL" : String) ≠ "BUY" ∧ ("SELL" : String) ≠ "SELL"))]
  rw [if_neg (not_le.mpr hp), if_neg (not_le.mpr hn)]
  rw [if_neg (by decide : ¬("SELL" : String) = "BUY")]
  rw [if_neg (not_le.mpr hq)]

/-- Counterexample to claim C1 as stated: the cash-never-negative clause
fails for SELLs whose fee rate exceeds 100%.  From cash 0 and a position of
1 unit, a SELL of notional 1 at price 1 with fee_rate 2 commits (fills) and
leaves the cash balance at -1. -/
theorem C1_negative_cash_counterexample :
    (0:ℚ) ≤ (⟨0, some ⟨1, 1⟩, []⟩ : LedgerState).cash_balance
    ∧ (execute_paper_order ⟨0, some ⟨1, 1⟩, []⟩ ⟨"a", "X", "SELL", 1, 1, "r"⟩ 2).1 =
        .filled ⟨1, 1, 1, 2⟩
    ∧ (execute_paper_order ⟨0, some ⟨1, 1⟩, []⟩
        ⟨"a", "X", "SELL", 1, 1, "r"⟩ 2).2.cash_balance = -1
    ∧ ¬ (0:ℚ) ≤ (-1:ℚ) := by
  refine ⟨by norm_num, ?_, ?_, by norm_num⟩ <;>
    norm_num [execute_paper_order, pyNorm_SELL, posQuantity, posAvgPrice, pyRound, rne,
      (by decide : ("SELL" : String) ≠ "BUY")]

/-- Claim C1 (amended): a BUY whose notional plus fee exceeds the cash
balance comes back as `rejected/insufficient_cash` with the whole ledger
state (cash, position, trade log) untouched, at every fee rate; and a
committed `execute_paper_order` transaction never turns a non-negative cash
balance negative for any BUY at any fee rate, and for any order when
`fee_rate ≤ 1` — the clause fails only for SELLs at a fee rate above 100%,
as the counterexample shows. -/
theorem C1_no_negative_cash_amended (st : LedgerState) (o : PaperOrder) (fee_rate : ℚ)
    (hcash : 0 ≤ st.cash_balance) :
    ((0 < o.price ∧ 0 < o.notional_eur ∧ pyStrip (pyUpper o.side) = "BUY" ∧
        st.cash_balance < o.notional_eur + o.notional_eur * fee_rate) →
      execute_paper_order st o fee_rate = (.rejected "insufficient_cash", st))
    ∧ (pyStrip (pyUpper o.side) = "BUY" →
        0 ≤ (execute_paper_order st o fee_rate).2.cash_balance)
    ∧ (fee_rate ≤ 1 → 0 ≤ (execute_paper_order st o fee_rate).2.cash_balance) := by
  have hbuy_preserve : pyStrip (pyUpper o.side) = "BUY" →
      0 ≤ (execute_paper_order st o fee_rate).2.cash_balance := by
    intro hside
    unfold execute_paper_order
    rw [hside]
    rw [if_neg (by decide : ¬(("BUY" : String) ≠ "BUY" ∧ ("BUY" : String) ≠ "SELL"))]
    rw [if_pos (show ("BUY" : String) = "BUY" from rfl)]
    dsimp only
    split_ifs with h1 h2 h3 h4 h5 <;> first | exact hcash | (dsimp only; linarith)
  have hsell_preserve : pyStrip (pyUpper o.side) = "SELL" → fee_rate ≤ 1 →
      0 ≤ (execute_paper_order st o fee_rate).2.cash_balance := by
    intro hside hfee
    unfold execute_paper_order
    rw [hside]
    rw [if_neg (by decide : ¬(("SELL" : String) ≠ "BUY" ∧ ("SELL" : String) ≠ "SELL"))]
    rw [if_neg (by decide : ¬("SELL" : String) = "BUY")]
    dsimp only
    split_ifs with h1 h2 h3 h4
    · exact hcash
    · exact hcash
    · exact hcash
    all_goals
      dsimp only
      have hm : 0 ≤ min o.notional_eur (posQuantity st.position * o.price) :=
        le_min (lt_of_not_le h2).le (mul_nonneg (lt_of_not_le h3).le (lt_of_not_le h1).le)
      nlinarith [mul_nonneg hm (sub_nonneg.mpr hfee)]
  refine ⟨?_, hbuy_preserve, ?_⟩
  · rintro ⟨hp, hn, hside, hc⟩
    exact execute_buy_reject st o fee_rate hside hp hn hc
  · intro hfee
    by_cases hside : pyStrip (pyUpper o.side) = "BUY"
    · exact hbuy_preserve hside
    · by_cases hsell : pyStrip (pyUpper o.side) = "SELL"
      · exact hsell_preserve hsell hfee
      · unfold execute_paper_order
        rw [if_pos ⟨hside, hsell⟩]
        exact hcash

/-- Witness for the amended C1: BUY of notional 100 at fee 0.001 against
cash 10. -/
theorem C1_no_negative_cash_amended_witness :
    (0:ℚ) ≤ 10 ∧
    ((((0:ℚ) < 1 ∧ (0:ℚ) < 100 ∧ pyStrip (pyUpper "BUY") = "BUY" ∧
        (10:ℚ) < 100 + 100 * (1/1000)) →
      execute_paper_order ⟨10, none, []⟩ ⟨"agent", "BTC", "BUY", 1, 100, "signal"⟩ (1/1000) =
        (.rejected "insufficient_cash", ⟨10, none, []⟩))
    ∧ (pyStrip (pyUpper "BUY") = "BUY" →
        0 ≤ (execute_paper_order ⟨10, none, []⟩
              ⟨"agent", "BTC", "BUY", 1, 100, "signal"⟩ (1/1000)).2.cash_balance)
    ∧ ((1/1000 : ℚ) ≤ 1 →
        0 ≤ (execute_paper_order ⟨10, none, []⟩
              ⟨"agent", "BTC", "BUY", 1, 100, "signal"⟩ (1/1000)).2.cash_balance)) :=
  ⟨by norm_num,
   C1_no_negative_cash_amended ⟨10, none, []⟩ ⟨"agent", "BTC", "BUY", 1, 100, "signal"⟩
     (1/1000) (by norm_num)⟩

/-- Claim C2: a SELL against a positive-quantity position fills at the capped
notional `min(requested, quantity×price)`; traded quantity and fee are
recomputed from that cap, the trade row records them, cash rises by
`capped − fee`, and the remaining position quantity is never negative. -/
theorem C2_sell_capped_no_oversell (st : LedgerState) (o : PaperOrder) (fee_rate : ℚ)
    (hside : pyStrip (pyUpper o.side) = "SELL") (hp : 0 < o.price) (hn : 0 < o.notional_eur)
    (hq : 0 < posQuantity st.position) :
    let m := min o.notional_eur (posQuantity st.position * o.price)
    (execute_paper_order st o fee_rate).1 =
      .filled ⟨pyRound (m / o.price) 10, pyRound o.price 10, pyRound m 8,
               pyRound (m * fee_rate) 8⟩
    ∧ (execute_paper_order st o fee_rate).2.cash_balance =
        st.cash_balance + (m - m * fee_rate)
    ∧ (execute_paper_order st o fee_rate).2.trades =
        st.trades ++ [⟨"SELL", m / o.price, o.price, m, m * fee_rate, o.reason⟩]
    ∧ m ≤ posQuantity st.position * o.price
    ∧ 0 ≤ posQuantity (execute_paper_order st o fee_rate).2.position := by
  intro m
  rw [execute_sell_fill st o fee_rate hside hp hn hq]
  refine ⟨rfl, rfl, rfl, min_le_right _ _, ?_⟩
  dsimp only
  split_ifs with h
  · rw [posQuantity_none]
  · rw [posQuantity_some]
    dsimp only
    linarith [lt_of_not_le h]

/-- Witness for C2: SELL requesting notional 100 against 2 units priced 3. -/
theorem C2_sell_capped_no_oversell_witness :
    pyStrip (pyUpper "SELL") = "SELL" ∧ (0:ℚ) < 3 ∧ (0:ℚ) < 100 ∧
      0 < posQuantity (some ⟨2, 5⟩) ∧
    ((execute_paper_order ⟨0, some ⟨2, 5⟩, []⟩ ⟨"agent", "BTC", "SELL", 3, 100, "signal"⟩
        (1/1000)).1 =
      .filled ⟨pyRound (min (100:ℚ) (posQuantity (some ⟨2, 5⟩) * 3) / 3) 10, pyRound 3 10,
               pyRound (min (100:ℚ) (posQuantity (some ⟨2, 5⟩) * 3)) 8,
               pyRound (min (100:ℚ) (posQuantity (some ⟨2, 5⟩) * 3) * (1/1000)) 8⟩
    ∧ (execute_paper_order ⟨0, some ⟨2, 5⟩, []⟩ ⟨"agent", "BTC", "SELL", 3, 100, "signal"⟩
        (1/1000)).2.cash_balance =
        0 + (min (100:ℚ) (posQuantity (some ⟨2, 5⟩) * 3) -
             min (100:ℚ) (posQuantity (some ⟨2, 5⟩) * 3) * (1/1000))
    ∧ (execute_paper_order ⟨0, some ⟨2, 5⟩, []⟩ ⟨"agent", "BTC", "SELL", 3, 100, "signal"⟩
        (1/1000)).2.trades =
        [] ++ [⟨"SELL", min (100:ℚ) (posQuantity (some ⟨2, 5⟩) * 3) / 3, 3,
                min (100:ℚ) (posQuantity (some ⟨2, 5⟩) * 3),
                min (100:ℚ) (posQuantity (some ⟨2, 5⟩) * 3) * (1/1000), "signal"⟩]
    ∧ min (100:ℚ) (posQuantity (some ⟨2, 5⟩) * 3) ≤ posQuantity (some ⟨2, 5⟩) * 3
    ∧ 0 ≤ posQuantity (execute_paper_order ⟨0, some ⟨2, 5⟩, []⟩
            ⟨"agent", "BTC", "SELL", 3, 100, "signal"⟩ (1/1000)).2.position) :=
  ⟨pyNorm_SELL, by norm_num, by norm_num, by norm_num [posQuantity],
   C2_sell_capped_no_oversell ⟨0, some ⟨2, 5⟩, []⟩ ⟨"agent", "BTC", "SELL", 3, 100, "signal"⟩
     (1/1000) pyNorm_SELL (by norm_num) (by norm_num) (by norm_num [posQuantity])⟩

/-- Counterexample to claim C3 as stated: starting from cash 10 and a position
of 1 unit at avg price 1, a zero-fee BUY of notional 2 at price 2 followed by
a zero-fee SELL of notional 2 at price 2 restores the cash balance but not
the position — the avg price has moved to the post-buy weighted average 3/2. -/
theorem C3_roundtrip_counterexample :
    (execute_paper_order (execute_paper_order ⟨10, some ⟨1, 1⟩, []⟩
        ⟨"a", "X", "BUY", 2, 2, "r"⟩ 0).2 ⟨"a", "X", "SELL", 2, 2, "r"⟩ 0).2.position =
      some ⟨1, 3/2⟩
    ∧ (⟨10, some ⟨1, 1⟩, []⟩ : LedgerState).position = some ⟨1, 1⟩
    ∧ ((⟨1, 3/2⟩ : Position) ≠ ⟨1, 1⟩)
    ∧ (execute_paper_order (execute_paper_order ⟨10, some ⟨1, 1⟩, []⟩
        ⟨"a", "X", "BUY", 2, 2, "r"⟩ 0).2 ⟨"a", "X", "SELL", 2, 2, "r"⟩ 0).2.cash_balance =
        10 := by
  norm_num [execute_paper_order, pyNorm_BUY, pyNorm_SELL, posQuantity, posAvgPrice,
    (by decide : ("SELL" : String) ≠ "BUY"), (by decide : ("BUY" : String) ≠ "SELL")]

/-- Claim C3 (amended): a zero-fee BUY of notional `n` at price `p` followed by
a zero-fee SELL of the same notional at the same price restores the cash
balance and the position quantity (the position row is deleted when the prior
quantity is at most the 1e-10 dust floor); the avg price is not restored — it
stays at the post-buy weighted average. -/
theorem C3_zero_fee_roundtrip_amended (st : LedgerState) (aid asset rs : String) (p n : ℚ)
    (hp : 0 < p) (hn : 0 < n) (hq : 0 ≤ posQuantity st.position) (hc : n ≤ st.cash_balance) :
    ((execute_paper_order (execute_paper_order st ⟨aid, asset, "BUY", p, n, rs⟩ 0).2
        ⟨aid, asset, "SELL", p, n, rs⟩ 0).2.cash_balance = st.cash_balance)
    ∧ (1/10^10 < posQuantity st.position →
        (execute_paper_order (execute_paper_order st ⟨aid, asset, "BUY", p, n, rs⟩ 0).2
          ⟨aid, asset, "SELL", p, n, rs⟩ 0).2.position =
          some ⟨posQuantity st.position,
            (posQuantity st.position * posAvgPrice st.position + n / p * p) /
              (posQuantity st.position + n / p)⟩)
    ∧ (posQuantity st.position ≤ 1/10^10 →
        (execute_paper_order (execute_paper_order st ⟨aid, asset, "BUY", p, n, rs⟩ 0).2
          ⟨aid, asset, "SELL", p, n, rs⟩ 0).2.position = none) := by
  have hbuy := execute_buy_fill st ⟨aid, asset, "BUY", p, n, rs⟩ 0 pyNorm_BUY hp hn
    (by simpa using not_lt.mpr hc) hq
  set st1 := (execute_paper_order st ⟨aid, asset, "BUY", p, n, rs⟩ 0).2 with hst1
  rw [hbuy] at hst1
  dsimp only at hst1
  have hq1 : 0 < posQuantity st1.position := by
    rw [hst1]
    dsimp only [posQuantity]
    exact add_pos_of_nonneg_of_pos hq (div_pos hn hp)
  have hsell := execute_sell_fill st1 ⟨aid, asset, "SELL", p, n, rs⟩ 0 pyNorm_SELL hp hn hq1
  have hq1v : posQuantity st1.position = posQuantity st.position + n / p := by
    rw [hst1]
    dsimp only [posQuantity]
  have ha1v : posAvgPrice st1.position =
      (if posQuantity st.position ≠ 0 then
        (posQuantity st.position * posAvgPrice st.position + n / p * p) /
          (posQuantity st.position + n / p)
      else p) := by
    rw [hst1]
    dsimp only [posAvgPrice]
  have hc1v : st1.cash_balance = st.cash_balance - (n + n * 0) := by rw [hst1]
  have hmin : min n (posQuantity st1.position * p) = n := by
    rw [hq1v]
    have hexp : (posQuantity st.position + n / p) * p = posQuantity st.position * p + n := by
      field_simp
    rw [hexp]
    exact min_eq_left (by nlinarith [mul_nonneg hq hp.le])
  refine ⟨?_, ?_, ?_⟩
  · rw [hsell]
    dsimp only
    rw [hmin, hc1v]
    ring
  · intro h
    have hqne : posQuantity st.position ≠ 0 := ne_of_gt (lt_trans (by norm_num) h)
    rw [hsell]
    dsimp only
    rw [hmin, hq1v, ha1v, if_pos hqne]
    have hsimp : posQuantity st.position + n / p - n / p = posQuantity st.position := by ring
    rw [hsimp, if_neg (not_le.mpr h)]
  · intro h
    rw [hsell]
    dsimp only
    rw [hmin, hq1v]
    have hsimp : posQuantity st.position + n / p - n / p = posQuantity st.position := by ring
    rw [hsimp, if_pos h]

/-- Witness for the amended C3: cash 10 and a pre-existing position of 1 unit
at avg price 4, round-tripping notional 2 at price 2. -/
theorem C3_zero_fee_roundtrip_amended_witness :
    (0:ℚ) < 2 ∧ (0:ℚ) ≤ posQuantity (some ⟨1, 4⟩) ∧ (2:ℚ) ≤ 10 ∧
    (((execute_paper_order (execute_paper_order ⟨10, some ⟨1, 4⟩, []⟩
        ⟨"a", "X", "BUY", 2, 2, "r"⟩ 0).2 ⟨"a", "X", "SELL", 2, 2, "r"⟩ 0).2.cash_balance = 10)
    ∧ (1/10^10 < posQuantity (some ⟨1, 4⟩) →
        (execute_paper_order (execute_paper_order ⟨10, some ⟨1, 4⟩, []⟩
          ⟨"a", "X", "BUY", 2, 2, "r"⟩ 0).2 ⟨"a", "X", "SELL", 2, 2, "r"⟩ 0).2.position =
          some ⟨posQuantity (some ⟨1, 4⟩),
            (posQuantity (some ⟨1, 4⟩) * posAvgPrice (some ⟨1, 4⟩) + 2 / 2 * 2) /
              (posQuantity (some ⟨1, 4⟩) + 2 / 2)⟩)
    ∧ (posQuantity (some ⟨1, 4⟩) ≤ 1/10^10 →
        (execute_paper_order (execute_paper_order ⟨10, some ⟨1, 4⟩, []⟩
          ⟨"a", "X", "BUY", 2, 2, "r"⟩ 0).2 ⟨"a", "X", "SELL", 2, 2, "r"⟩ 0).2.position =
          none)) :=
  ⟨by norm_num, by norm_num [posQuantity], by norm_num,
   C3_zero_fee_roundtrip_amended ⟨10, some ⟨1, 4⟩, []⟩ "a" "X" "r" 2 2
     (by norm_num) (by norm_num) (by norm_num [posQuantity]) (by norm_num)⟩

/-- The trend-follow formula as claim C8 states it, for comparison with
`score_trend_follow`: the scaled EMA9−EMA21 gap enters the 0.7/0.3 blend
*raw* (no inner clamp), with the RSI component as described, and only the
blend is clamped to `[-1, 1]`. -/
def claimC8_trend_follow_formula (candles : List Candle) : ℚ :=
  let closes := _extract_closes candles
  let rsi := _rsi closes 14
  let rsi_component :=
    if rsi > 55 then _clamp ((rsi - 55) / 20) 0 1
    else if rsi < 45 then _clamp (-((45 - rsi) / 20)) (-1) 0
    else 0
  _clamp (0.7 * (((_ema closes 9 - _ema closes 21) / closes.getLastD 0) * 20) +
    0.3 * rsi_component) (-1) 1

/-- A 30-close history: flat at 1, a jump to 10, then seven 11/10 swings.  Its
last 14 deltas have equal gains and losses (RSI exactly 50), while the scaled
EMA gap is far above 1. -/
def c8Closes : List ℚ :=
  [1, 1, 1, 1, 1, 1, 1, 1, 1, 1, 1, 1, 1, 1, 1, 10,
   11, 10, 11, 10, 11, 10, 11, 10, 11, 10, 11, 10, 11, 10]

/-- The candle form of `c8Closes`. -/
def c8Candles : List Candle := c8Closes.map Candle.mk

/-- Counterexample to claim C8 as stated: on `c8Candles` the code clamps the
trend component to 1 before blending and returns 0.7, while the claim's
formula (clamping only the blend) returns 1. -/
theorem C8_trend_follow_counterexample :
    score_trend_follow c8Candles = 7/10
    ∧ claimC8_trend_follow_formula c8Candles = 1
    ∧ (7/10 : ℚ) ≠ 1 := by
  refine ⟨?_, ?_, by norm_num⟩
  · norm_num [score_trend_follow, c8Candles, c8Closes, _extract_closes, _ema, _rsi, _clamp,
      List.range_succ, List.getD, List.foldl]
  · norm_num [claimC8_trend_follow_formula, c8Candles, c8Closes, _extract_closes, _ema, _rsi,
      _clamp, List.range_succ, List.getD, List.foldl]

lemma clamp_pos_upper (v : ℚ) (hv : 0 ≤ v) : _clamp v (-1) 1 = _clamp v 0 1 := by
  unfold _clamp
  rcases le_total v 1 with hle | hge
  · rw [min_eq_right hle, max_eq_right (by linarith : (-1:ℚ) ≤ v), max_eq_right hv]
  · rw [min_eq_left hge, max_eq_right (by norm_num : (-1:ℚ) ≤ 1),
        max_eq_right (by norm_num : (0:ℚ) ≤ 1)]

lemma clamp_neg_lower (v : ℚ) (hv : 0 ≤ v) : -(_clamp v (-1) 1) = _clamp (-v) (-1) 0 := by
  unfold _clamp
  rcases le_total v 1 with hle | hge
  · rw [min_eq_right hle, max_eq_right (by linarith : (-1:ℚ) ≤ v),
        min_eq_right (by linarith : -v ≤ (0:ℚ)), max_eq_right (by linarith : (-1:ℚ) ≤ -v)]
  · rw [min_eq_left hge, max_eq_right (by norm_num : (-1:ℚ) ≤ 1),
        min_eq_right (by linarith : -v ≤ (0:ℚ)), max_eq_left (by linarith : -v ≤ (-1:ℚ))]

/-- Claim C8 (amended): for histories of at least 30 closes with a nonzero
last close, the trend-follow score is the clamp to `[-1, 1]` of
`0.7 × clamp((EMA9 − EMA21)/last_close × 20, -1, 1) + 0.3 × rsi_component` —
the trend component is itself clamped before the blend (this inner clamp is
what the claim as stated omits); the RSI component is as the claim says. -/
theorem C8_trend_follow_formula_amended (candles : List Candle)
    (h30 : ¬ (_extract_closes candles).length < 30)
    (hlast : ¬ (_extract_closes candles).getLastD 0 = 0) :
    score_trend_follow candles =
      _clamp (0.7 * _clamp (((_ema (_extract_closes candles) 9 -
            _ema (_extract_closes candles) 21) /
            (_extract_closes candles).getLastD 0) * 20) (-1) 1 +
        0.3 * (if _rsi (_extract_closes candles) 14 > 55 then
            _clamp ((_rsi (_extract_closes candles) 14 - 55) / 20) 0 1
          else if _rsi (_extract_closes candles) 14 < 45 then
            _clamp (-((45 - _rsi (_extract_closes candles) 14) / 20)) (-1) 0
          else 0)) (-1) 1 := by
  simp only [score_trend_follow, if_neg h30, if_neg hlast]
  split_ifs with h55 h45
  · rw [clamp_pos_upper ((_rsi (_extract_closes candles) 14 - 55) / 20)
      (by apply div_nonneg <;> linarith)]
    congr 1
    ring
  · rw [clamp_neg_lower ((45 - _rsi (_extract_closes candles) 14) / 20)
      (by apply div_nonneg <;> linarith)]
    congr 1
    ring
  · congr 1
    ring

/-- Witness for the amended C8 at the concrete history `c8Candles`. -/
theorem C8_trend_follow_formula_amended_witness :
    ¬ (_extract_closes c8Candles).length < 30
    ∧ ¬ (_extract_closes c8Candles).getLastD 0 = 0
    ∧ score_trend_follow c8Candles =
      _clamp (0.7 * _clamp (((_ema (_extract_closes c8Candles) 9 -
            _ema (_extract_closes c8Candles) 21) /
            (_extract_closes c8Candles).getLastD 0) * 20) (-1) 1 +
        0.3 * (if _rsi (_extract_closes c8Candles) 14 > 55 then
            _clamp ((_rsi (_extract_closes c8Candles) 14 - 55) / 20) 0 1
          else if _rsi (_extract_closes c8Candles) 14 < 45 then
            _clamp (-((45 - _rsi (_extract_closes c8Candles) 14) / 20)) (-1) 0
          else 0)) (-1) 1 :=
  ⟨by norm_num [c8Candles, c8Closes, _extract_closes],
   by norm_num [c8Candles, c8Closes, _extract_closes],
   C8_trend_follow_formula_amended c8Candles
     (by norm_num [c8Candles, c8Closes, _extract_closes])
     (by norm_num [c8Candles, c8Closes, _extract_closes])⟩

/-- Claim C9: an agent forced to trade daily, with no organic trade and no
trade yet today, preferring SELL but holding no position, with cash 100, a
positive mark price, minimum order 5 and fee 0.001, never errors out: the
enforcer switches the side to BUY, caps the notional at
`min(target, cash/(1+fee_rate))` (rounded to 8 decimals as the source does),
and the order executes as a fill. -/
theorem C9_forced_sell_falls_back_to_buy (agent : AgentCfg) (agent_id : String)
    (pf : PortfolioView) (mark : String → ℚ) (fetched : Option ℚ) (date : String)
    (st : LedgerState)
    (hforce : agent.force_daily_trade = true)
    (hside : pyUpper (agent.daily_trade_side.getD "BUY") = "SELL")
    (hasset : ¬ dailyAssetOf agent = "")
    (hprice : 0 < mark (dailyAssetOf agent))
    (hpos : pf.positions = [])
    (hcash : pf.cash_balance = 100)
    (hstcash : st.cash_balance = 100)
    (hstpos : st.position = none) :
    ∃ fill st2,
      _enforce_daily_trade_requirement agent agent_id pf mark fetched 5 (1/1000) date 0 false st =
        .enforced
          ⟨agent_id, dailyAssetOf agent, "BUY", mark (dailyAssetOf agent),
           pyRound (min (max 5 (agent.daily_trade_notional_eur.getD 5)) (100 / (1 + 1/1000))) 8,
           "mandatory_daily_trade|date=" ++ date⟩
          (ExecOutcome.filled fill, st2) := by
  have hsel : _select_sell_position pf (dailyAssetOf agent) = none := by
    unfold _select_sell_position
    rw [hpos]
    rfl
  unfold _enforce_daily_trade_requirement
  rw [hforce]
  rw [if_neg (by simp : ¬ ¬ (true : Bool) = true)]
  rw [if_neg (lt_irrefl 0)]
  rw [if_neg (by simp : ¬ (false : Bool) = true)]
  rw [if_neg hasset]
  rw [hside]
  dsimp only
  rw [if_pos (Or.inr rfl : ("SELL" : String) = "BUY" ∨ ("SELL" : String) = "SELL")]
  rw [if_neg (not_le.mpr hprice)]
  dsimp only
  rw [if_neg (by decide : ¬ ("SELL" : String) = "BUY")]
  rw [hsel]
  dsimp only
  rw [hcash]
  rw [if_neg (by norm_num : ¬ (100 : ℚ) / (1 + 1/1000) < 5)]
  dsimp only
  have htarget : (5:ℚ) ≤ min (max 5 (agent.daily_trade_notional_eur.getD 5)) (100 / (1 + 1/1000)) :=
    le_min (le_max_left _ _) (by norm_num)
  rw [if_neg (not_lt.mpr htarget)]
  have h58 : pyRound (5:ℚ) 8 = 5 := by simpa using pyRound_intCast 5 8
  have hM8 : pyRound ((100:ℚ) / (1 + 1/1000)) 8 = 999000999/10^7 := by
    norm_num [pyRound, rne]
  have hnlo : (5:ℚ) ≤ pyRound (min (max 5 (agent.daily_trade_notional_eur.getD 5))
      (100 / (1 + 1/1000))) 8 := by
    have := pyRound_mono htarget 8
    rw [h58] at this
    exact this
  have hnhi : pyRound (min (max 5 (agent.daily_trade_notional_eur.getD 5))
      (100 / (1 + 1/1000))) 8 ≤ 999000999/10^7 := by
    have := pyRound_mono (min_le_right (max 5 (agent.daily_trade_notional_eur.getD 5))
      ((100:ℚ) / (1 + 1/1000))) 8
    rw [hM8] at this
    exact this
  rw [execute_buy_fill st
    ⟨agent_id, dailyAssetOf agent, "BUY", mark (dailyAssetOf agent),
     pyRound (min (max 5 (agent.daily_trade_notional_eur.getD 5)) (100 / (1 + 1/1000))) 8,
     "mandatory_daily_trade|date=" ++ date⟩
    (1/1000) pyNorm_BUY hprice (by linarith)
    (by rw [hstcash]; intro hlt; nlinarith)
    (by rw [hstpos]; exact le_refl 0)]
  exact ⟨_, _, rfl⟩

/-- Witness for C9: a concrete agent preferring SELL with no position,
cash 100, mark price 50, minimum order 5, fee 0.001. -/
theorem C9_forced_sell_falls_back_to_buy_witness :
    (⟨true, some "btc", [], some "SELL", some 25⟩ : AgentCfg).force_daily_trade = true
    ∧ pyUpper ((⟨true, some "btc", [], some "SELL", some 25⟩ :
        AgentCfg).daily_trade_side.getD "BUY") = "SELL"
    ∧ ¬ dailyAssetOf ⟨true, some "btc", [], some "SELL", some 25⟩ = ""
    ∧ (0:ℚ) < (fun _ => (50:ℚ)) (dailyAssetOf ⟨true, some "btc", [], some "SELL", some 25⟩)
    ∧ (⟨100, []⟩ : PortfolioView).positions = []
    ∧ (⟨100, []⟩ : PortfolioView).cash_balance = 100
    ∧ (⟨100, none, []⟩ : LedgerState).cash_balance = 100
    ∧ (⟨100, none, []⟩ : LedgerState).position = none
    ∧ ∃ fill st2,
        _enforce_daily_trade_requirement ⟨true, some "btc", [], some "SELL", some 25⟩ "a1"
            ⟨100, []⟩ (fun _ => 50) none 5 (1/1000) "2025-01-01" 0 false ⟨100, none, []⟩ =
          .enforced
            ⟨"a1", dailyAssetOf ⟨true, some "btc", [], some "SELL", some 25⟩, "BUY",
             (fun _ => (50:ℚ)) (dailyAssetOf ⟨true, some "btc", [], some "SELL", some 25⟩),
             pyRound (min (max 5 ((⟨true, some "btc", [], some "SELL", some 25⟩ :
                 AgentCfg).daily_trade_notional_eur.getD 5)) (100 / (1 + 1/1000))) 8,
             "mandatory_daily_trade|date=" ++ "2025-01-01"⟩
            (ExecOutcome.filled fill, st2) :=
  ⟨rfl, by decide, by decide, by norm_num, rfl, rfl, rfl, rfl,
   C9_forced_sell_falls_back_to_buy ⟨true, some "btc", [], some "SELL", some 25⟩ "a1"
     ⟨100, []⟩ (fun _ => 50) none "2025-01-01" ⟨100, none, []⟩
     rfl (by decide) (by decide) (by norm_num) rfl rfl rfl rfl⟩
